import Mathlib

/-!
Shallow embedding of `src/app.py` (a Streamlit Whisper transcription app).

The embedded fragment is the `Process Media` click handler (lines 135-243):
model load, temp-file handling, optional ffmpeg video-to-audio conversion,
the transcription call, and the result rendering / export code, together
with the SRT subtitle serialization loop (lines 210-228).

Modelling conventions:
* byte blobs are abstract strings;
* segment `start` / `end` offsets, floats (seconds) in the source, are
  modelled as exact non-negative integer millisecond counts; `time.gmtime`
  applied to an offset keeps its whole-second part, i.e. `ms / 1000`;
* Python string methods (`str.lower`, `str.upper`, `str.replace`) are
  modelled by structurally recursive functions over the character list so
  that every definition evaluates inside the kernel;
* external effects (CUDA probe, `whisper.load_model`, `NamedTemporaryFile`
  naming, the ffmpeg subprocess exit status, `model.transcribe`) are
  oracles supplied in an environment record, and Python exceptions are
  `Except.error` values;
* the file-system and process side effects of one invocation are logged in
  an explicit `Effects` record (files created, files unlinked, argument
  vectors of spawned subprocesses, models loaded).
-/

namespace WhisperApp

/-- Python `str.lower()` (per-character lowercasing). -/
def pyLower (s : String) : String := String.mk (s.data.map Char.toLower)

/-- Python `str.upper()` (per-character uppercasing). -/
def pyUpper (s : String) : String := String.mk (s.data.map Char.toUpper)

/-- One pass of Python `str.replace` over a character list: replace every
(non-overlapping, leftmost-first) occurrence of `pat` by `repl`.  `fuel`
bounds the number of steps; each step consumes at least one character, so
`fuel = l.length` is always enough.  (Python's empty-pattern behaviour is
irrelevant here: the source only ever replaces a non-empty extension.) -/
def pyReplaceLoop (pat repl : List Char) : Nat → List Char → List Char
  | _, [] => []
  | 0, l => l
  | fuel + 1, c :: rest =>
    if pat.isPrefixOf (c :: rest) ∧ pat ≠ [] then
      repl ++ pyReplaceLoop pat repl fuel ((c :: rest).drop pat.length)
    else
      c :: pyReplaceLoop pat repl fuel rest

/-- Python `s.replace(pattern, repl)` for a non-empty `pattern`. -/
def pyReplace (s pattern repl : String) : String :=
  String.mk (pyReplaceLoop pattern.data repl.data s.data.length s.data)

/-- Uploaded media blob: declared filename plus raw bytes (abstract). -/
structure MediaInput where
  name : String
  data : String
deriving DecidableEq

/-- One timed segment of the transcription result (`result["segments"][i]`).
Offsets are in integer milliseconds (the source's float seconds, exactly). -/
structure Segment where
  start : Nat
  «end» : Nat
  text : String
deriving DecidableEq

/-- The dictionary returned by `model.transcribe`; the rendering code tests
each key with `in`, so every field is optional. -/
structure WhisperResult where
  text : Option String
  language : Option String
  segments : Option (List Segment)
deriving DecidableEq

/-- The options dict built at lines 164-171. -/
structure Options where
  task : String
  fp16 : Bool
  verbose : Bool
  language : Option String
deriving DecidableEq

/-- Lines 164-171: `options = {"task": task.lower(), "fp16": device == "cuda",
"verbose": False}` plus `options["language"] = language.lower()` unless the
selector is `Auto-detect`. -/
def buildOptions (task : String) (device : String) (language : String) : Options :=
  { task := pyLower task
    fp16 := device == "cuda"
    verbose := false
    language := if language ≠ "Auto-detect" then some (pyLower language) else none }

/-- Index of the last occurrence of `c` in `l`, if any. -/
def rfindIdx (l : List Char) (c : Char) : Option Nat :=
  match l.reverse.indexOf? c with
  | none => none
  | some j => some (l.length - 1 - j)

/-- `os.path.splitext(p)[1]` (posixpath): the suffix of `p` from its last dot,
provided that dot lies after the last path separator and at least one
character of the basename before it is not a dot; otherwise `""`. -/
def splitextExt (p : String) : String :=
  let l := p.data
  let sep : Int := match rfindIdx l '/' with | none => -1 | some i => (i : Int)
  let dot : Int := match rfindIdx l '.' with | none => -1 | some i => (i : Int)
  if dot > sep then
    let base := (l.drop (sep + 1).toNat).take (dot - sep - 1).toNat
    if base.any (fun c => c ≠ '.') then String.mk (l.drop dot.toNat) else ""
  else ""

/-- Line 152: the recognized video-container extensions. -/
def videoExts : List String := [".mp4", ".avi", ".mov", ".mkv", ".wmv", ".webm"]

/-- Line 149: `file_extension = os.path.splitext(audio_file.name)[1].lower()`. -/
def fileExtensionOf (f : MediaInput) : String := pyLower (splitextExt f.name)

/-- Line 154: `audio_path = temp_path.replace(file_extension, '.wav')`
(Python `str.replace` substitutes every occurrence, none if absent). -/
def audioPathOf (tempPath fileExtension : String) : String :=
  pyReplace tempPath fileExtension ".wav"

/-- Lines 155-156: the argument vector handed to `subprocess.run`. -/
def ffmpegArgs (tempPath audioPath : String) : List String :=
  ["ffmpeg", "-i", tempPath, "-vn", "-acodec", "pcm_s16le", "-ar", "16000", audioPath]

/-- The `audio_path` the conversion branch computes for upload `f` when the
temp file is named `tempName`. -/
def convertedPath (tempName : String) (f : MediaInput) : String :=
  audioPathOf tempName (fileExtensionOf f)

/-- The full ffmpeg argument vector for upload `f` and temp file `tempName`. -/
def convertArgs (tempName : String) (f : MediaInput) : List String :=
  ffmpegArgs tempName (convertedPath tempName f)

/-- Two-digit zero-padded decimal rendering, as `strftime` does for
`%H`, `%M`, `%S`. -/
def pad2 (n : Nat) : String :=
  if n < 10 then "0" ++ toString n else toString n

/-- `time.strftime('%H:%M:%S,000', time.gmtime(t))` for `t` whole seconds:
hours wrap modulo 24 (`gmtime` rolls excess into the day fields), and the
millisecond field is the literal `000` (lines 218-219). -/
def strftimeHMS000 (t : Nat) : String :=
  pad2 (t / 3600 % 24) ++ ":" ++ pad2 (t % 3600 / 60) ++ ":" ++ pad2 (t % 60) ++ ",000"

/-- Timestamp rendering of a segment offset: `time.gmtime` truncates the
float seconds to whole seconds, so an offset of `ms` milliseconds becomes
`ms / 1000` seconds. -/
def srtTimestamp (ms : Nat) : String := strftimeHMS000 (ms / 1000)

/-- Line 221: the block appended for the `i`-th (0-based) segment:
`f"{i+1}\n{start_srt} --> {end_srt}\n{text}\n\n"`. -/
def srtBlock (i : Nat) (seg : Segment) : String :=
  toString (i + 1) ++ "\n" ++ srtTimestamp seg.start ++ " --> " ++
    srtTimestamp seg.«end» ++ "\n" ++ seg.text ++ "\n\n"

/-- Lines 211-221: `srt_content = ""` then
`for i, segment in enumerate(result["segments"]): srt_content += block`. -/
def srtContent (segs : List Segment) : String :=
  segs.enum.foldl (fun acc p => acc ++ srtBlock p.1 p.2) ""

/-- The list of blocks the loop appends, in loop order. -/
def srtBlocks (segs : List Segment) : List String :=
  segs.enum.map (fun p => srtBlock p.1 p.2)

/-- What the page renders from a `WhisperResult` (lines 188-228): the
detected-language banner, the transcription box, and the data handed to the
two download buttons.  The HTML wrappers are presentation only and are left
out; the download payloads are carried verbatim. -/
structure Rendered where
  languageBanner : Option String
  transcriptionBox : Option String
  textDownload : Option String
  srtDownload : Option String
deriving DecidableEq

/-- Lines 188-228.  `st.info` fires iff `"language" in result` (upper-cased);
the transcription box, the text download (`data=transcription` where
`transcription = result["text"]`) and the SRT download (guarded by
`"segments" in result`, nested under the text branch) fire iff their keys
are present. -/
def render (result : WhisperResult) : Rendered :=
  { languageBanner := result.language.map pyUpper
    transcriptionBox := result.text
    textDownload := result.text
    srtDownload :=
      match result.text with
      | none => none
      | some _ => result.segments.map srtContent }

/-- Side effects of one invocation: models loaded, temp files written, files
unlinked, subprocess argument vectors spawned, in order. -/
structure Effects where
  modelLoads : List String := []
  created : List String := []
  deleted : List String := []
  spawned : List (List String) := []
deriving DecidableEq

/-- The transient files created by the invocation and never unlinked. -/
def Effects.leftover (e : Effects) : List String :=
  e.created.filter (fun p => ¬ p ∈ e.deleted)

/-- Oracles for the app's external collaborators.  `loadModel` and
`transcribe` return `Except.error` when the library call raises;
`ffmpegExit` is the subprocess's exit status for a given argument vector;
`tempName` is the path `NamedTemporaryFile(delete=False)` picks. -/
structure Env where
  cudaAvailable : Bool
  loadModel : String → String → Except String Unit
  tempName : String
  ffmpegExit : List String → Nat
  ffmpegError : String
  transcribe : String → Options → Except String WhisperResult

/-- Line 140: `device = "cuda" if torch.cuda.is_available() else "cpu"`. -/
def Env.device (env : Env) : String :=
  if env.cudaAvailable then "cuda" else "cpu"

/-- Lines 160-185: build the options dict and call `model.transcribe`.
Both arms of the `chunk_size` branch (lines 174-180) issue the identical
call; the chunked arm additionally computes the unused
`chunk_duration = chunk_size * 60`.  On success the temp file is unlinked
(line 185); an exception propagates with the effects so far. -/
def transcribeStep (env : Env) (task language : String) (chunkSize : Nat)
    (tempPath : String) (eff : Effects) : Except String Rendered × Effects :=
  let options := buildOptions task env.device language
  let callResult :=
    if chunkSize > 0 then
      let _chunkDuration := chunkSize * 60
      env.transcribe tempPath options
    else
      env.transcribe tempPath options
  match callResult with
  | .error e => (.error e, eff)
  | .ok result =>
      (.ok (render result), { eff with deleted := eff.deleted ++ [tempPath] })

/-- The body of the `try:` at lines 138-238, from `whisper.load_model`
through rendering.  Python exceptions are `Except.error`; alongside the
result the accumulated `Effects` record what the body did to the outside
world on that path. -/
def tryBody (env : Env) (f : MediaInput) (selectedModel task language : String)
    (chunkSize : Nat) : Except String Rendered × Effects :=
  match env.loadModel selectedModel env.device with
  | .error e => (.error e, { modelLoads := [selectedModel] })
  | .ok _ =>
    let tempPath := env.tempName
    let fileExtension := fileExtensionOf f
    if fileExtension ∈ videoExts then
      let audioPath := convertedPath tempPath f
      let args := convertArgs tempPath f
      if env.ffmpegExit args ≠ 0 then
        (.error env.ffmpegError,
         { modelLoads := [selectedModel], created := [tempPath], spawned := [args] })
      else
        transcribeStep env task language chunkSize audioPath
          { modelLoads := [selectedModel], created := [tempPath, audioPath],
            deleted := [tempPath], spawned := [args] }
    else
      transcribeStep env task language chunkSize tempPath
        { modelLoads := [selectedModel], created := [tempPath] }

/-- What the `Process Media` handler leaves on the page. -/
inductive Outcome where
  | rendered : Rendered → Outcome
  | errorShown : String → Outcome
deriving DecidableEq

/-- Lines 135-243: the whole click handler.  With no upload, only
`st.error("Please upload an audio or video file first")` runs (line 243);
otherwise the try body runs and any exception is caught at line 239 and
shown as `f"Error: {str(e)}"`. -/
def processClick (env : Env) (selectedModel task language : String)
    (chunkSize : Nat) (audioFile : Option MediaInput) : Outcome × Effects :=
  match audioFile with
  | none => (.errorShown "Please upload an audio or video file first", {})
  | some f =>
    match tryBody env f selectedModel task language chunkSize with
    | (.ok r, eff) => (.rendered r, eff)
    | (.error e, eff) => (.errorShown ("Error: " ++ e), eff)

/-! ### Concrete fixtures used by witnesses and counterexamples -/

/-- A video-container upload. -/
def videoUpload : MediaInput := { name := "video.mp4", data := "videobytes" }

/-- An audio upload. -/
def audioUpload : MediaInput := { name := "audio.mp3", data := "audiobytes" }

/-- The two-segment result from the spec's testable-properties example,
offsets in milliseconds. -/
def exampleSegs : List Segment :=
  [{ start := 0, «end» := 1500, text := "Hello" },
   { start := 1500, «end» := 3000, text := "world" }]

/-- A successful transcription result. -/
def okResult : WhisperResult :=
  { text := some "Hello world", language := some "en", segments := some exampleSegs }

/-- Environment in which every external call succeeds;
`NamedTemporaryFile` picks a (dot-free) name, as it always does. -/
def envAllOk : Env :=
  { cudaAvailable := false
    loadModel := fun _ _ => .ok ()
    tempName := "/tmp/tmpw84qtd3x"
    ffmpegExit := fun _ => 0
    ffmpegError := "Command returned non-zero exit status 1."
    transcribe := fun _ _ => .ok okResult }

/-- Environment in which the ffmpeg subprocess exits non-zero, raising
`CalledProcessError` via `check=True`. -/
def envFfmpegFails : Env :=
  { envAllOk with ffmpegExit := fun _ => 1 }

/-- Environment in which `model.transcribe` raises. -/
def envTranscribeFails : Env :=
  { envAllOk with transcribe := fun _ _ => .error "transcribe failed" }

/-- Environment in which `whisper.load_model` raises. -/
def envLoadFails : Env :=
  { envAllOk with loadModel := fun _ _ => .error "CUDA out of memory" }

/-! ### Helper lemmas -/

/-- A pattern starting with `'.'` matches at no position of a dot-free list. -/
theorem isPrefixOf_eq_false_of_head {pat : List Char} {c : Char} {rest : List Char}
    (hpat : pat.head? = some '.') (hc : c ≠ '.') :
    pat.isPrefixOf (c :: rest) = false := by
  cases pat with
  | nil => simp at hpat
  | cons p pt =>
    have hp : p = '.' := by simpa using hpat
    subst hp
    have hbeq : ('.' == c) = false := by
      simp only [beq_eq_false_iff_ne]
      exact fun h => hc h.symm
    show (('.' == c) && pt.isPrefixOf rest) = false
    rw [hbeq, Bool.false_and]

/-- `str.replace` with a pattern starting in `'.'` leaves a dot-free
character list unchanged, for any fuel. -/
theorem pyReplaceLoop_eq_self {pat : List Char} (hpat : pat.head? = some '.')
    (repl : List Char) :
    ∀ (fuel : Nat) (l : List Char), '.' ∉ l → pyReplaceLoop pat repl fuel l = l := by
  intro fuel
  induction fuel with
  | zero =>
    intro l _
    cases l <;> rfl
  | succ n ih =>
    intro l hl
    cases l with
    | nil => rfl
    | cons c rest =>
      have hc : c ≠ '.' := fun h => hl (by simp [h])
      have hrest : '.' ∉ rest := fun h => hl (List.mem_cons_of_mem _ h)
      show (if pat.isPrefixOf (c :: rest) ∧ pat ≠ [] then
              repl ++ pyReplaceLoop pat repl n ((c :: rest).drop pat.length)
            else c :: pyReplaceLoop pat repl n rest) = c :: rest
      rw [if_neg, ih rest hrest]
      intro hcontra
      have h1 : pat.isPrefixOf (c :: rest) = true := hcontra.1
      rw [isPrefixOf_eq_false_of_head hpat hc] at h1
      cases h1

/-- Every recognized video extension begins with a dot. -/
theorem videoExts_head {ext : String} (h : ext ∈ videoExts) :
    ext.data.head? = some '.' := by
  simp only [videoExts, List.mem_cons, List.not_mem_nil, or_false] at h
  rcases h with rfl | rfl | rfl | rfl | rfl | rfl <;> rfl

/-- For any dot-free temp-file path (as `NamedTemporaryFile` produces, since
it appends no suffix) and any video extension, line 154's
`temp_path.replace(file_extension, '.wav')` returns `temp_path` unchanged. -/
theorem audioPathOf_eq_self {tempPath ext : String} (hdot : '.' ∉ tempPath.data)
    (hext : ext ∈ videoExts) : audioPathOf tempPath ext = tempPath := by
  unfold audioPathOf pyReplace
  rw [pyReplaceLoop_eq_self (videoExts_head hext) _ _ _ hdot]

/-- The transcription stage never spawns a subprocess. -/
theorem transcribeStep_spawned (env : Env) (task language : String) (c : Nat)
    (tempPath : String) (eff : Effects) :
    (transcribeStep env task language c tempPath eff).2.spawned = eff.spawned := by
  simp only [transcribeStep]
  split <;> rfl

/-- Both arms of the `chunk_size` branch issue the identical transcription
call, so the stage is a constant function of `chunk_size`. -/
theorem transcribeStep_chunk_irrelevant (env : Env) (task language : String)
    (c : Nat) (tempPath : String) (eff : Effects) :
    transcribeStep env task language c tempPath eff =
      transcribeStep env task language 0 tempPath eff := by
  by_cases h : c > 0 <;> simp [transcribeStep, h]

/-- `chunk_size` is dead in the whole try body. -/
theorem tryBody_chunk_irrelevant (env : Env) (f : MediaInput)
    (m t lang : String) (c : Nat) :
    tryBody env f m t lang c = tryBody env f m t lang 0 := by
  cases h : env.loadModel m env.device with
  | error e => simp [tryBody, h]
  | ok u =>
    by_cases hv : fileExtensionOf f ∈ videoExts
    · by_cases hz : env.ffmpegExit (convertArgs env.tempName f) ≠ 0
      · simp [tryBody, h, hv, hz]
      · simp [tryBody, h, hv, hz, transcribeStep_chunk_irrelevant]
    · simp [tryBody, h, hv, transcribeStep_chunk_irrelevant]

/-- The SRT accumulation loop concatenates exactly the per-segment blocks. -/
theorem srtContent_eq_join (segs : List Segment) :
    srtContent segs = String.join (srtBlocks segs) := by
  simp [srtContent, srtBlocks, String.join, List.foldl_map]

/-- Each SRT block is a non-empty string. -/
theorem srtBlock_length_pos (i : Nat) (s : Segment) : 0 < (srtBlock i s).length := by
  have h : ("\n" : String).length = 1 := rfl
  simp only [srtBlock, String.length_append, h]
  omega

/-- Appending blocks never shrinks the accumulator. -/
theorem foldl_append_length_le (l : List (Nat × Segment)) :
    ∀ a : String, a.length ≤ (l.foldl (fun acc p => acc ++ srtBlock p.1 p.2) a).length := by
  induction l with
  | nil => intro a; exact Nat.le_refl _
  | cons p l ih =>
    intro a
    refine Nat.le_trans ?_ (ih (a ++ srtBlock p.1 p.2))
    simp only [String.length_append]
    exact Nat.le_add_right _ _

/-! ### Claim theorems -/

/-- Claim C1: the subtitle export is claimed to render the fractional part of
the offset in the milliseconds field (125.4 s as `00:02:05,400`).  The code
formats with the literal pattern `'%H:%M:%S,000'`, so the offset 125.4 s
(modelled exactly as 125400 ms) renders as `00:02:05,000`, not
`00:02:05,400`: sub-second precision is discarded. -/
theorem srt_timestamp_drops_subseconds :
    srtTimestamp 125400 = "00:02:05,000" ∧ ¬ srtTimestamp 125400 = "00:02:05,400" := by
  decide

/-- Claim C2: cleanup is claimed on every exit path.  In the code the
`os.unlink` calls (lines 157 and 185) are ordinary statements after the
fallible calls, not `finally` blocks, so when the ffmpeg subprocess exits
non-zero, or when `model.transcribe` raises, the temp file written at lines
144-146 is never deleted: a transient file is left on disk on both failure
paths while the handler reports the error. -/
theorem failure_paths_leak_temp_files :
    (processClick envFfmpegFails "base" "Transcribe" "Auto-detect" 0 (some videoUpload)).1 =
      .errorShown "Error: Command returned non-zero exit status 1." ∧
    (processClick envFfmpegFails "base" "Transcribe" "Auto-detect" 0
        (some videoUpload)).2.leftover = ["/tmp/tmpw84qtd3x"] ∧
    (processClick envTranscribeFails "base" "Transcribe" "Auto-detect" 0
        (some audioUpload)).2.leftover = ["/tmp/tmpw84qtd3x"] := by
  decide

/-- Claim C3: the converted-audio path is claimed distinct from the original
temp path.  `NamedTemporaryFile()` is called with no suffix, so the temp
name contains no dot, the extension is not a substring, and line 154's
`replace` is the identity: the derived path EQUALS the temp path, and on the
video path the invocation records writing the same path twice rather than
two distinct files.  The general part: for every dot-free temp path and
every video extension the derived path equals the temp path. -/
theorem audio_path_not_distinct :
    (audioPathOf "/tmp/tmpw84qtd3x" ".mp4" = "/tmp/tmpw84qtd3x" ∧
     (tryBody envAllOk videoUpload "base" "Transcribe" "Auto-detect" 0).2.created =
       ["/tmp/tmpw84qtd3x", "/tmp/tmpw84qtd3x"]) ∧
    ∀ tempPath ext : String, '.' ∉ tempPath.data → ext ∈ videoExts →
      audioPathOf tempPath ext = tempPath :=
  ⟨by decide, fun _ _ hdot hext => audioPathOf_eq_self hdot hext⟩

/-- Witness for `audio_path_not_distinct` at a concrete dot-free temp path
and the `.avi` extension. -/
theorem audio_path_not_distinct_witness :
    audioPathOf "/tmp/tmp12345abc" ".avi" = "/tmp/tmp12345abc" :=
  audio_path_not_distinct.2 "/tmp/tmp12345abc" ".avi" (by decide) (by decide)

/-- Claim C4 counterexample: the conversion subprocess is claimed to force a
single (mono) channel, but the spawned argument vector is exactly
`ffmpeg -i <in> -vn -acodec pcm_s16le -ar 16000 <out>` and carries no
channel-count (`-ac`) flag at all. -/
theorem ffmpeg_args_no_channel_flag :
    (tryBody envFfmpegFails videoUpload "base" "Transcribe" "Auto-detect" 0).2.spawned =
      [["ffmpeg", "-i", "/tmp/tmpw84qtd3x", "-vn", "-acodec", "pcm_s16le",
        "-ar", "16000", "/tmp/tmpw84qtd3x"]] ∧
    ¬ "-ac" ∈ ffmpegArgs "/tmp/tmpw84qtd3x" "/tmp/tmpw84qtd3x" := by
  decide

/-- Claim C4 (amended): for every video-extension upload, after a successful
model load the try body spawns exactly one subprocess, with the fixed
argument vector that demuxes the audio track (`-vn`), outputs signed 16-bit
PCM (`-acodec pcm_s16le`) and resamples to 16 kHz (`-ar 16000`) — with no
channel-count flag — and the conversion stage raises the tool's error
exactly when the subprocess exits non-zero, continuing into the
transcription stage otherwise. -/
theorem ffmpeg_stage_behaviour (env : Env) (f : MediaInput) (m t lang : String)
    (c : Nat) (hext : fileExtensionOf f ∈ videoExts)
    (hload : env.loadModel m env.device = .ok ()) :
    (tryBody env f m t lang c).2.spawned = [convertArgs env.tempName f] ∧
    (env.ffmpegExit (convertArgs env.tempName f) ≠ 0 →
      tryBody env f m t lang c =
        (.error env.ffmpegError,
          { modelLoads := [m], created := [env.tempName],
            spawned := [convertArgs env.tempName f] })) ∧
    (env.ffmpegExit (convertArgs env.tempName f) = 0 →
      tryBody env f m t lang c =
        transcribeStep env t lang c (convertedPath env.tempName f)
          { modelLoads := [m],
            created := [env.tempName, convertedPath env.tempName f],
            deleted := [env.tempName],
            spawned := [convertArgs env.tempName f] }) := by
  refine ⟨?_, fun hz => ?_, fun hz => ?_⟩
  · simp only [tryBody, hload, hext, if_true]
    split
    · rfl
    · rw [transcribeStep_spawned]
  · simp [tryBody, hload, hext, hz]
  · simp [tryBody, hload, hext, hz]

/-- Witness for `ffmpeg_stage_behaviour`: the concrete video upload with a
failing converter. -/
theorem ffmpeg_stage_behaviour_witness :
    tryBody envFfmpegFails videoUpload "base" "Transcribe" "Auto-detect" 0 =
      (.error "Command returned non-zero exit status 1.",
        { modelLoads := ["base"], created := ["/tmp/tmpw84qtd3x"],
          spawned := [convertArgs "/tmp/tmpw84qtd3x" videoUpload] }) :=
  (ffmpeg_stage_behaviour envFfmpegFails videoUpload "base" "Transcribe"
    "Auto-detect" 0 (by decide) rfl).2.1 (by decide)

/-- Claim C5: the chunk-size option is inert — for every environment, input
and chunk-size value the whole invocation is identical to the
chunk-size-zero run. -/
theorem chunk_size_inert (env : Env) (m t lang : String) (c : Nat)
    (af : Option MediaInput) :
    processClick env m t lang c af = processClick env m t lang 0 af := by
  cases af with
  | none => rfl
  | some f => simp only [processClick, tryBody_chunk_irrelevant]

/-- Claim C6: subtitle export emits one block per segment in sequence order,
the whole document is the concatenation of those blocks, and the `k`-th
block (0-based) is exactly `<k+1>\n<start> --> <end>\n<text>\n\n`, so the
indices run 1..N in order. -/
theorem srt_block_structure (segs : List Segment) :
    srtContent segs = String.join (srtBlocks segs) ∧
    (srtBlocks segs).length = segs.length ∧
    ∀ (k : Nat) (s : Segment), segs[k]? = some s →
      (srtBlocks segs)[k]? =
        some (toString (k + 1) ++ "\n" ++ srtTimestamp s.start ++ " --> " ++
          srtTimestamp s.«end» ++ "\n" ++ s.text ++ "\n\n") := by
  refine ⟨srtContent_eq_join segs, by simp [srtBlocks], ?_⟩
  intro k s hk
  simp [srtBlocks, List.getElem?_map, List.getElem?_enum, hk, srtBlock]

/-- Witness for `srt_block_structure` at the spec's two-segment example:
the second block carries index 2. -/
theorem srt_block_structure_witness :
    (srtBlocks exampleSegs)[1]? =
      some (toString (1 + 1) ++ "\n" ++ srtTimestamp 1500 ++ " --> " ++
        srtTimestamp 3000 ++ "\n" ++ "world" ++ "\n\n") :=
  (srt_block_structure exampleSegs).2.2 1
    { start := 1500, «end» := 3000, text := "world" } (by decide)

/-- Claim C7: subtitle export returns the empty string exactly on the empty
segment sequence — the empty list is the only input producing an empty
document. -/
theorem srt_empty_iff_no_segments (segs : List Segment) :
    srtContent segs = "" ↔ segs = [] := by
  cases segs with
  | nil => exact iff_of_true rfl rfl
  | cons s rest =>
    refine iff_of_false (fun hcontra => ?_) (by simp)
    have h1 : (srtBlock 0 s).length ≤ (srtContent (s :: rest)).length := by
      have h2 := foldl_append_length_le (rest.enumFrom 1) ("" ++ srtBlock 0 s)
      have h3 : srtContent (s :: rest) =
          (rest.enumFrom 1).foldl (fun acc p => acc ++ srtBlock p.1 p.2)
            ("" ++ srtBlock 0 s) := by
        simp [srtContent, List.enum_cons]
      rw [h3]
      simpa using h2
    have h4 := srtBlock_length_pos 0 s
    rw [hcontra] at h1
    simp only [String.length_empty, Nat.le_zero] at h1
    omega

/-- Claim C8: the plain-text export is the identity on the result's full
text field — the download payload and the rendered box carry `result["text"]`
unchanged. -/
theorem text_export_identity (result : WhisperResult) (t : String)
    (h : result.text = some t) :
    (render result).textDownload = some t ∧
    (render result).transcriptionBox = some t := by
  simp [render, h]

/-- Witness for `text_export_identity` at the concrete ok result. -/
theorem text_export_identity_witness :
    (render okResult).textDownload = some "Hello world" ∧
    (render okResult).transcriptionBox = some "Hello world" :=
  text_export_identity okResult "Hello world" rfl

/-- Claim C9: every exception any stage of the try body raises is caught by
the `except Exception` handler and converted into the user-visible
`Error: ...` message with the same effects — the invocation always ends in
a page outcome, never an escaped exception. -/
theorem exception_converted_to_error (env : Env) (m t lang : String) (c : Nat)
    (f : MediaInput) (e : String) (eff : Effects)
    (h : tryBody env f m t lang c = (.error e, eff)) :
    processClick env m t lang c (some f) = (.errorShown ("Error: " ++ e), eff) := by
  simp [processClick, h]

/-- Witness for `exception_converted_to_error`: a failing model load is
shown as an error message. -/
theorem exception_converted_to_error_witness :
    processClick envLoadFails "large" "Transcribe" "English" 0 (some audioUpload) =
      (.errorShown ("Error: " ++ "CUDA out of memory"), { modelLoads := ["large"] }) :=
  exception_converted_to_error envLoadFails "large" "Transcribe" "English" 0
    audioUpload "CUDA out of memory" { modelLoads := ["large"] } rfl

/-- Claim C10: pressing the button with no upload runs none of the pipeline:
no model load, no temp file, no subprocess, no deletion — only the
missing-file error message is shown. -/
theorem no_upload_no_processing (env : Env) (m t lang : String) (c : Nat) :
    processClick env m t lang c none =
      (.errorShown "Please upload an audio or video file first",
        { modelLoads := [], created := [], deleted := [], spawned := [] }) := rfl

end WhisperApp

